import Mathlib

/-!
Verification of the mental-health risk analysis core: a shallow embedding of
the Pattern Matcher (`get_flags`), the Decision Engine (`decide_action`),
the Classifier Adapter (`MLService.predict` and the `/ml/predict` route
handler `predict_mental_health`) and the Response Composer
(`ChatbotService.generate_response`), translated from
`backend/backend/main.py`, `backend/app/main.py` (whose pattern/decision
logic is identical), `backend/app/services/ml_service.py`,
`backend/app/services/chatbot_service.py` and
`backend/app/api/routes/ml.py`.

Python floats appear only in order comparisons against the fixed constants
0.55, 0.5 and 0.3, so confidences and probabilities are modelled as
rationals (`ℚ`), which preserves the ordering.
-/

/- ===================== Pattern Matcher ===================== -/

/-- Word character in the sense of the regex `\b` boundary (ASCII `\w`):
letters, digits or underscore. All source patterns are ASCII phrases, so the
ASCII reading of Python's word boundary is faithful on them. -/
def isWordChar (c : Char) : Bool := c.isAlphanum || c == '_'

/-- If `phrase` is a literal prefix of `text`, return the remaining text. -/
def prefixRest : List Char → List Char → Option (List Char)
  | [], rest => some rest
  | _ :: _, [] => none
  | p :: ps, t :: ts => if p == t then prefixRest ps ts else none

/-- Holds when `phrase` matches at the head of `text` and the character following the
match (if any) is a non-word character, i.e. the trailing `\b` holds. -/
def boundedAt (phrase text : List Char) : Bool :=
  match prefixRest phrase text with
  | none => false
  | some [] => true
  | some (c :: _) => !isWordChar c

/-- Scan `text` for a word-bounded occurrence of `phrase`. `prevWord` says
whether the character just before the current position is a word character;
every source phrase begins and ends with a word character, so the leading
`\b` amounts to the previous character not being a word character. -/
def searchFrom (phrase : List Char) : List Char → Bool → Bool
  | [], _ => phrase.isEmpty
  | c :: rest, prevWord =>
      (!prevWord && boundedAt phrase (c :: rest)) || searchFrom phrase rest (isWordChar c)

/-- The Boolean of `re.search(r"\b<phrase>\b", text, re.IGNORECASE)`, for a
literal lowercase `phrase`: the text is lowercased (ASCII, as `Char.toLower`
matches Python `str.lower` on ASCII) and scanned for a word-bounded
occurrence. -/
def searchCI (phrase : String) (text : String) : Bool :=
  searchFrom phrase.data (text.data.map Char.toLower) false

/-- The `INTENT_PATTERNS` list from `backend/backend/main.py` lines 74-79, with each
regex alternation `\b(a|b|c)\b` flattened into its word-bounded literal
phrases. -/
def INTENT_PATTERNS : List String :=
  ["i will", "i am going to", "i gonna",
   "kill myself", "end my life", "suicide",
   "i want to die", "i don\x27t want to live",
   "can\x27t go on", "no reason to live"]

/-- The `TIME_PATTERNS` list (lines 81-83), flattened. -/
def TIME_PATTERNS : List String :=
  ["today", "tonight", "now", "right now", "this evening"]

/-- The `PLAN_PATTERNS` list (lines 85-87), flattened. -/
def PLAN_PATTERNS : List String :=
  ["i have a plan", "planned it", "figured out how"]

/-- The `MEANS_PATTERNS` list (lines 89-91), flattened. -/
def MEANS_PATTERNS : List String :=
  ["pills", "overdose", "rope", "knife", "gun", "poison"]

/-- Embedding of `_match_any(patterns, text)`: some pattern matches the text
case-insensitively. -/
def _match_any (patterns : List String) (text : String) : Bool :=
  patterns.any (fun p => searchCI p text)

/-- Embedding of `get_flags(text)`: collect the matched rule categories in the fixed
order intent, time, plan, means (the Python code appends to a list in that
order). -/
def get_flags (text : String) : List String :=
  (if _match_any INTENT_PATTERNS text then ["intent"] else []) ++
  (if _match_any TIME_PATTERNS text then ["time"] else []) ++
  (if _match_any PLAN_PATTERNS text then ["plan"] else []) ++
  (if _match_any MEANS_PATTERNS text then ["means"] else [])

/- ===================== Decision Engine ===================== -/

/-- ASCII lowercase of a string, as Python `str.lower` on ASCII input
(`str(risk_label).lower()` in the source). -/
def lowerString (s : String) : String := ⟨s.data.map Char.toLower⟩

/-- Embedding of `decide_action(risk_label, confidence, flags)` from
`backend/backend/main.py` lines 108-125 (identically `backend/app/main.py`
lines 133-156): rule co-occurrence gives `crisis_critical`; any flag gives
`crisis_high`; a suicidal model label gives `crisis_high`; low confidence
gives `uncertain_support`; otherwise `normal`. -/
def decide_action (risk_label : String) (confidence : ℚ) (flags : List String) : String :=
  if ("intent" ∈ flags ∧ "time" ∈ flags) ∨
     ("plan" ∈ flags ∧ ("intent" ∈ flags ∨ "time" ∈ flags)) then
    "crisis_critical"
  else if flags ≠ [] then
    "crisis_high"
  else if lowerString risk_label ∈ (["suicidal", "suicide"] : List String) then
    "crisis_high"
  else if confidence < 55 / 100 then
    "uncertain_support"
  else
    "normal"

/- ===================== Classifier Adapter ===================== -/

/-- Result dictionary returned by `MLService.predict`
(`backend/app/services/ml_service.py` lines 77-90): either
`{"prediction": ..., "probabilities": ..., "status": "success"}` or
`{"prediction": None, "probabilities": {}, "status": "error",
"message": str(e)}`. The probabilities dict is an association list built by
`zip(self.classes, probs)`. -/
inductive MLPredictResult where
  | success (prediction : String) (probabilities : List (String × ℚ))
  | error (message : String)
deriving DecidableEq

/-- The `status` field of the result dictionary. -/
def MLPredictResult.status : MLPredictResult → String
  | .success _ _ => "success"
  | .error _ => "error"

/-- The `message` field of the result dictionary (`result.get("message")`):
present only on the error shape. -/
def MLPredictResult.message : MLPredictResult → Option String
  | .success _ _ => none
  | .error m => some m

/-- Embedding of `MLService.predict(text)` (`ml_service.py` lines 49-90). The external
sklearn pipeline is passed in explicitly: `transform` is
`self.vectorizer.transform`, `modelPredict` is `self.model.predict`,
`modelPredictProba` is `self.model.predict_proba` when the classifier has
one (`hasattr` check), and `classes` is `model_data["classes"]` loaded at
startup. A raised Python exception is an `Except.error` carrying `str(e)`;
the surrounding `try/except` turns any of them into the error-shaped
result, so `predict` itself never raises. -/
def MLService.predict {α : Type}
    (transform : String → Except String α)
    (modelPredict : α → Except String String)
    (modelPredictProba : Option (α → Except String (List ℚ)))
    (classes : List String)
    (text : String) : MLPredictResult :=
  match transform text with
  | .error e => .error e
  | .ok X =>
    match modelPredict X with
    | .error e => .error e
    | .ok prediction =>
      match modelPredictProba with
      | none => .success prediction []
      | some proba =>
        match proba X with
        | .error e => .error e
        | .ok probs => .success prediction (classes.zip probs)

/-- The `/ml/predict` route handler `predict_mental_health`
(`backend/app/api/routes/ml.py` lines 15-32), applied to the result of
`ml_service.predict`: on error status it raises
`HTTPException(status_code=500, detail=result.get("message", "Prediction failed"))`,
modelled as `Except.error (500, detail)`; otherwise it returns the result. -/
def predict_mental_health (result : MLPredictResult) : Except (Nat × String) MLPredictResult :=
  if result.status == "error" then
    .error (500, result.message.getD "Prediction failed")
  else
    .ok result

/- ===================== Response Composer ===================== -/

/-- The static `self.crisis_resources` payload of `ChatbotService`
(`backend/app/services/chatbot_service.py` lines 56-62). -/
structure CrisisResources where
  hotlines : List String
deriving DecidableEq

/-- The crisis resources value loaded once at service construction. -/
def crisis_resources : CrisisResources :=
  ⟨["National Suicide Prevention Lifeline: 988 or 1-800-273-8255",
    "Crisis Text Line: Text HOME to 741741",
    "International Association for Suicide Prevention: https://www.iasp.info/resources/Crisis_Centres/"]⟩

/-- The `self.response_templates` dictionary (`chatbot_service.py` lines 32-53). -/
def response_templates : List (String × List String) :=
  [("Anxiety",
    ["I notice you might be feeling anxious. That\x27s completely valid. Would you like to try a breathing exercise or talk about what\x27s on your mind?",
     "It sounds like you\x27re experiencing some anxiety. Remember, these feelings are temporary. Would you like some coping strategies?",
     "I understand you\x27re feeling anxious right now. Let\x27s work through this together. What would help you most - a grounding technique or just talking?"]),
   ("Depression",
    ["I hear that you\x27re going through a difficult time. Your feelings are valid, and I\x27m here to support you. Would you like to talk about what\x27s been weighing on you?",
     "It sounds like things have been really tough lately. Please know that you\x27re not alone. Would you like to explore some gentle activities that might help?",
     "Thank you for sharing how you\x27re feeling. Depression can be overwhelming, but there are ways to manage it. Would you like to talk more or learn about resources?"]),
   ("Suicidal",
    ["⚠️ I\x27m very concerned about what you\x27ve shared. Please know that help is available right now. Would you like me to connect you with a crisis helpline?",
     "⚠️ Your safety is the top priority. Please reach out to a crisis helpline immediately or call emergency services. I\x27m here, but professional help is crucial right now.",
     "⚠️ I\x27m worried about you. If you\x27re having thoughts of harming yourself, please contact a crisis helpline or go to the nearest emergency room. Would you like crisis resources?"]),
   ("Normal",
    ["Thank you for sharing with me. How are you feeling today?",
     "I\x27m here to listen and support you. What would you like to talk about?",
     "That\x27s great to hear. Is there anything specific you\x27d like to explore or discuss?"])]

/-- The read `self.response_templates.get(prediction, self.response_templates["Normal"])`. -/
def templatesFor (prediction : String) : List String :=
  match response_templates.lookup prediction with
  | some ts => ts
  | none => (response_templates.lookup "Normal").getD []

/-- The `empathy_prefixes` list in `_get_contextual_response`
(`chatbot_service.py` lines 155-159). -/
def empathy_prefixes : List String :=
  ["I\x27ve been listening, and ",
   "Thank you for continuing to share. ",
   "I appreciate you opening up. "]

/-- The dict-with-default read `probabilities.get(key, dflt)`. -/
def probGet (probabilities : List (String × ℚ)) (key : String) (dflt : ℚ) : ℚ :=
  match probabilities.lookup key with
  | some v => v
  | none => dflt

/-- Embedding of `ChatbotService._get_contextual_response` (`chatbot_service.py` lines
127-170). `random.choice` is injected as the function `choose` picking an
element of a template list, so the definition covers every possible draw.
`user_message` is accepted but unused, as in the source. -/
def _get_contextual_response (choose : List String → String)
    (prediction : String) (probabilities : List (String × ℚ))
    (user_message : String)
    (conversation_context : Option (List String)) : String :=
  let base0 := choose (templatesFor prediction)
  let base1 :=
    match conversation_context with
    | some ctx =>
        if 2 < ctx.length ∧ prediction ∈ (["Anxiety", "Depression", "Suicidal"] : List String) then
          choose empathy_prefixes ++ lowerString base0
        else base0
    | none => base0
  let confidence := probGet probabilities prediction 0
  if confidence < 1 / 2 ∧ prediction ≠ "Normal" then
    base1 ++ " I want to understand better - can you tell me more?"
  else
    base1

/-- Result dictionary of `ChatbotService.generate_response`: the error
shape (`chatbot_service.py` lines 81-86) has no crisis fields, while the
success shape (lines 102-112) carries `crisis_detected`,
`requires_professional_help` and, only when a crisis is detected, the
`crisis_resources` key. -/
inductive ChatResult where
  | error (response : String)
  | success (response : String) (prediction : String)
      (probabilities : List (String × ℚ))
      (crisis_detected : Bool) (requires_professional_help : Bool)
      (crisis_resources : Option CrisisResources)
deriving DecidableEq

/-- Presence/value of the `crisis_detected` key of the result dict. -/
def ChatResult.crisisDetected : ChatResult → Option Bool
  | .error _ => none
  | .success _ _ _ cd _ _ => some cd

/-- Presence/value of the `requires_professional_help` key. -/
def ChatResult.requiresHelp : ChatResult → Option Bool
  | .error _ => none
  | .success _ _ _ _ rph _ => some rph

/-- Presence/value of the `crisis_resources` key. -/
def ChatResult.crisisResources : ChatResult → Option CrisisResources
  | .error _ => none
  | .success _ _ _ _ _ cr => cr

/-- Embedding of `ChatbotService.generate_response` (`chatbot_service.py` lines 64-125),
applied to the prediction result obtained from `ml_service.predict`: on
error status it returns the fallback response, otherwise it composes the
contextual response and the crisis metadata, attaching the static
`crisis_resources` exactly when `crisis_detected`. -/
def generate_response (choose : List String → String)
    (prediction_result : MLPredictResult)
    (user_message : String)
    (conversation_context : Option (List String)) : ChatResult :=
  match prediction_result with
  | .error _ =>
      .error "I\x27m having trouble processing that right now. Could you try rephrasing?"
  | .success prediction probabilities =>
      let response_text :=
        _get_contextual_response choose prediction probabilities user_message conversation_context
      let crisis_detected :=
        prediction == "Suicidal" || decide (3 / 10 < probGet probabilities "Suicidal" 0)
      ChatResult.success response_text prediction probabilities crisis_detected
        (crisis_detected || decide (prediction ∈ (["Suicidal", "Depression"] : List String)))
        (if crisis_detected then some crisis_resources else none)

/- ===================== Theorems ===================== -/

/-- Any non-empty flag list lands in one of the two crisis tiers: the first
branch of `decide_action` yields `crisis_critical`, and otherwise the
`if flags` branch fires. Shared helper for the flag-domination claims. -/
theorem decide_action_of_flags_ne_nil (label : String) (conf : ℚ) (flags : List String)
    (h : flags ≠ []) :
    decide_action label conf flags = "crisis_high" ∨
    decide_action label conf flags = "crisis_critical" := by
  unfold decide_action
  by_cases h1 : ("intent" ∈ flags ∧ "time" ∈ flags) ∨
      ("plan" ∈ flags ∧ ("intent" ∈ flags ∨ "time" ∈ flags))
  · rw [if_pos h1]
    exact Or.inr rfl
  · rw [if_neg h1, if_pos h]
    exact Or.inl rfl

/-- Claim C1: whenever the flags contain both `intent` and `time`, or
contain `plan` together with `intent` or `time`, `decide_action` returns
`crisis_critical`, for every label and confidence. -/
theorem decide_action_crisis_critical (label : String) (conf : ℚ) (flags : List String)
    (h : ("intent" ∈ flags ∧ "time" ∈ flags) ∨
         ("plan" ∈ flags ∧ ("intent" ∈ flags ∨ "time" ∈ flags))) :
    decide_action label conf flags = "crisis_critical" := by
  unfold decide_action
  rw [if_pos h]

theorem decide_action_crisis_critical_witness :
    decide_action "Anxiety" (1 / 100) ["intent", "time"] = "crisis_critical" :=
  decide_action_crisis_critical "Anxiety" (1 / 100) ["intent", "time"]
    (Or.inl ⟨by decide, by decide⟩)

/-- Claim C2: a non-empty flag list always yields `crisis_high` or
`crisis_critical`, never `normal` or `uncertain_support`, for every label
and confidence — rule flags dominate the model output. -/
theorem decide_action_flags_dominate (label : String) (conf : ℚ) (flags : List String)
    (h : flags ≠ []) :
    (decide_action label conf flags = "crisis_high" ∨
     decide_action label conf flags = "crisis_critical") ∧
    decide_action label conf flags ≠ "normal" ∧
    decide_action label conf flags ≠ "uncertain_support" := by
  have d := decide_action_of_flags_ne_nil label conf flags h
  refine ⟨d, ?_, ?_⟩ <;> rcases d with d | d <;> rw [d] <;> decide

theorem decide_action_flags_dominate_witness :
    (decide_action "Normal" (99 / 100) ["means"] = "crisis_high" ∨
     decide_action "Normal" (99 / 100) ["means"] = "crisis_critical") ∧
    decide_action "Normal" (99 / 100) ["means"] ≠ "normal" ∧
    decide_action "Normal" (99 / 100) ["means"] ≠ "uncertain_support" :=
  decide_action_flags_dominate "Normal" (99 / 100) ["means"] (by decide)

/-- Claim C3: with no flags, a label that case-insensitively equals
`suicidal` or `suicide` yields `crisis_high`, for every confidence. -/
theorem decide_action_model_only_escalation (label : String) (conf : ℚ)
    (h : lowerString label = "suicidal" ∨ lowerString label = "suicide") :
    decide_action label conf [] = "crisis_high" := by
  have h1 : ¬(("intent" ∈ ([] : List String) ∧ "time" ∈ ([] : List String)) ∨
      ("plan" ∈ ([] : List String) ∧
        ("intent" ∈ ([] : List String) ∨ "time" ∈ ([] : List String)))) := by simp
  have h2 : ¬(([] : List String) ≠ []) := by simp
  have h3 : lowerString label ∈ (["suicidal", "suicide"] : List String) := by
    simpa using h
  unfold decide_action
  rw [if_neg h1, if_neg h2, if_pos h3]

theorem decide_action_model_only_escalation_witness :
    decide_action "SuIcIdAl" (8 / 10) [] = "crisis_high" :=
  decide_action_model_only_escalation "SuIcIdAl" (8 / 10) (Or.inl (by decide))

/-- Claim C4: with no flags and a non-suicidal label, `decide_action`
returns `uncertain_support` exactly when the confidence is below 0.55 and
`normal` from 0.55 up; in particular confidence exactly 0.55 gives
`normal` (strict less-than threshold). -/
theorem decide_action_threshold (label : String) (conf : ℚ)
    (h1 : lowerString label ≠ "suicidal") (h2 : lowerString label ≠ "suicide") :
    (decide_action label conf [] = "uncertain_support" ↔ conf < 55 / 100) ∧
    (55 / 100 ≤ conf → decide_action label conf [] = "normal") ∧
    decide_action label (55 / 100) [] = "normal" := by
  have e1 : ¬(("intent" ∈ ([] : List String) ∧ "time" ∈ ([] : List String)) ∨
      ("plan" ∈ ([] : List String) ∧
        ("intent" ∈ ([] : List String) ∨ "time" ∈ ([] : List String)))) := by simp
  have e2 : ¬(([] : List String) ≠ []) := by simp
  have e3 : lowerString label ∉ (["suicidal", "suicide"] : List String) := by
    simp [h1, h2]
  have key : ∀ q : ℚ, decide_action label q [] =
      if q < 55 / 100 then "uncertain_support" else "normal" := by
    intro q
    unfold decide_action
    rw [if_neg e1, if_neg e2, if_neg e3]
  refine ⟨?_, ?_, ?_⟩
  · rw [key conf]
    by_cases hq : conf < 55 / 100
    · simp [hq]
    · simp [hq]
  · intro hle
    rw [key conf, if_neg (not_lt.mpr hle)]
  · rw [key (55 / 100), if_neg (lt_irrefl (55 / 100 : ℚ))]

theorem decide_action_threshold_witness :
    decide_action "Anxiety" (54 / 100) [] = "uncertain_support" ∧
    decide_action "Anxiety" (55 / 100) [] = "normal" :=
  ⟨(decide_action_threshold "Anxiety" (54 / 100) (by decide) (by decide)).1.mpr
      (by norm_num),
   (decide_action_threshold "Anxiety" (55 / 100) (by decide) (by decide)).2.2⟩

/-- Claim C9: `get_flags` is total — on the empty string it returns the
empty flag list, and on every string it returns a sublist of the four rule
categories (it cannot fail, being a pure computation). -/
theorem get_flags_total :
    get_flags "" = [] ∧
    ∀ text : String, get_flags text ⊆ ["intent", "time", "plan", "means"] := by
  refine ⟨by decide, ?_⟩
  intro text
  simp only [get_flags]
  refine List.append_subset.mpr ⟨List.append_subset.mpr ⟨List.append_subset.mpr
    ⟨?_, ?_⟩, ?_⟩, ?_⟩ <;> split <;> simp

/-- Claim C10: a word-bounded, case-insensitive occurrence of `i will`,
`i am going to` or `i gonna` makes `get_flags` include `intent` even with
no self-harm content, and `decide_action` on the resulting flags yields a
crisis tier for every label and confidence. -/
theorem intent_marker_escalates (text : String)
    (h : _match_any ["i will", "i am going to", "i gonna"] text = true) :
    "intent" ∈ get_flags text ∧
    ∀ (label : String) (conf : ℚ),
      decide_action label conf (get_flags text) = "crisis_high" ∨
      decide_action label conf (get_flags text) = "crisis_critical" := by
  have hint : _match_any INTENT_PATTERNS text = true := by
    simp only [_match_any, List.any_eq_true] at h ⊢
    obtain ⟨p, hp, hs⟩ := h
    refine ⟨p, ?_, hs⟩
    simp only [List.mem_cons, List.not_mem_nil, or_false] at hp
    rcases hp with rfl | rfl | rfl <;> decide
  have hmem : "intent" ∈ get_flags text := by
    simp [get_flags, hint]
  exact ⟨hmem, fun label conf =>
    decide_action_of_flags_ne_nil label conf (get_flags text) (List.ne_nil_of_mem hmem)⟩

theorem intent_marker_escalates_witness :
    "intent" ∈ get_flags "I will call you" ∧
    (decide_action "Normal" (99 / 100) (get_flags "I will call you") = "crisis_high" ∨
     decide_action "Normal" (99 / 100) (get_flags "I will call you") = "crisis_critical") :=
  ⟨(intent_marker_escalates "I will call you" (by decide)).1,
   (intent_marker_escalates "I will call you" (by decide)).2 "Normal" (99 / 100)⟩

/-- Claim C5: for every successful prediction, the composed result has
`crisis_detected` true exactly when the label is the exact string
`Suicidal` or the probability stored under `Suicidal` exceeds 0.3, and the
static crisis-resources payload is attached exactly when
`crisis_detected` is true. -/
theorem generate_response_crisis_detection (choose : List String → String)
    (pred : String) (probs : List (String × ℚ)) (msg : String)
    (ctx : Option (List String)) :
    ((generate_response choose (.success pred probs) msg ctx).crisisDetected = some true ↔
      (pred = "Suicidal" ∨ 3 / 10 < probGet probs "Suicidal" 0)) ∧
    ((generate_response choose (.success pred probs) msg ctx).crisisResources =
        some crisis_resources ↔
      (generate_response choose (.success pred probs) msg ctx).crisisDetected = some true) ∧
    ((generate_response choose (.success pred probs) msg ctx).crisisResources = none ↔
      (generate_response choose (.success pred probs) msg ctx).crisisDetected = some false) := by
  simp only [generate_response, ChatResult.crisisDetected, ChatResult.crisisResources]
  by_cases hs : pred = "Suicidal" <;>
    by_cases hp : (3 : ℚ) / 10 < probGet probs "Suicidal" 0 <;>
      simp [hs, hp]

/-- Claim C6: for every successful prediction, the composed result has
`requires_professional_help` true exactly when `crisis_detected` is true or
the label is `Suicidal` or `Depression`. -/
theorem generate_response_requires_help (choose : List String → String)
    (pred : String) (probs : List (String × ℚ)) (msg : String)
    (ctx : Option (List String)) :
    (generate_response choose (.success pred probs) msg ctx).requiresHelp = some true ↔
      ((generate_response choose (.success pred probs) msg ctx).crisisDetected = some true ∨
        pred = "Suicidal" ∨ pred = "Depression") := by
  simp only [generate_response, ChatResult.requiresHelp, ChatResult.crisisDetected]
  by_cases hs : pred = "Suicidal" <;> by_cases hd : pred = "Depression" <;>
    by_cases hp : (3 : ℚ) / 10 < probGet probs "Suicidal" 0 <;>
      simp [hs, hd, hp]

/-- Claim C7, amended: when the vectorizer transform or the classifier
raises, `MLService.predict` returns the error-shaped result instead of
raising, but the `/ml/predict` handler then fails the request with a 500
whose detail is exactly the internal exception message, not a generic
indicator. -/
theorem predict_error_propagation {α : Type}
    (transform : String → Except String α)
    (modelPredict : α → Except String String)
    (modelPredictProba : Option (α → Except String (List ℚ)))
    (classes : List String) (text m : String)
    (h : transform text = Except.error m ∨
         ∃ X, transform text = Except.ok X ∧ modelPredict X = Except.error m) :
    MLService.predict transform modelPredict modelPredictProba classes text =
      MLPredictResult.error m ∧
    predict_mental_health
        (MLService.predict transform modelPredict modelPredictProba classes text) =
      Except.error (500, m) := by
  have hp : MLService.predict transform modelPredict modelPredictProba classes text =
      MLPredictResult.error m := by
    rcases h with h | ⟨X, h1, h2⟩
    · simp [MLService.predict, h]
    · simp [MLService.predict, h1, h2]
  refine ⟨hp, ?_⟩
  rw [hp]
  rfl

theorem predict_error_propagation_witness :
    MLService.predict (α := Unit) (fun _ => Except.error "boom")
        (fun _ => Except.ok "Normal") none [] "hello" = MLPredictResult.error "boom" ∧
    predict_mental_health (MLService.predict (α := Unit) (fun _ => Except.error "boom")
        (fun _ => Except.ok "Normal") none [] "hello") = Except.error (500, "boom") :=
  predict_error_propagation (fun _ => Except.error "boom") (fun _ => Except.ok "Normal")
    none [] "hello" "boom" (Or.inl rfl)

/-- Claim C7 fails as stated: on a transform failure carrying the internal
exception text `ValueError: bad bytes`, the `/ml/predict` handler responds
with that very text as the HTTP 500 detail, which differs from the
generic `Prediction failed` indicator. -/
theorem predict_leaks_exception_text :
    predict_mental_health (MLService.predict (α := Unit)
        (fun _ => Except.error "ValueError: bad bytes")
        (fun _ => Except.ok "Normal") none [] "hello") =
      Except.error (500, "ValueError: bad bytes") ∧
    "ValueError: bad bytes" ≠ "Prediction failed" :=
  ⟨rfl, by decide⟩

/-- Claim C8: when the classifier exposes probabilities and returns one
probability per known class (the sklearn `predict_proba` contract over
`model_data["classes"]`), every successful prediction's probability
mapping has exactly the startup label vocabulary as its key list — no
label dropped or invented — and every label of the metadata list appears
as a key. -/
theorem predict_probability_keys {α : Type}
    (transform : String → Except String α)
    (modelPredict : α → Except String String)
    (proba : α → Except String (List ℚ))
    (classes : List String) (text : String) (pred : String)
    (probDict : List (String × ℚ))
    (hlen : ∀ X probs, proba X = Except.ok probs → probs.length = classes.length)
    (h : MLService.predict transform modelPredict (some proba) classes text =
      MLPredictResult.success pred probDict) :
    probDict.map Prod.fst = classes ∧ ∀ l ∈ classes, ∃ q, (l, q) ∈ probDict := by
  cases htf : transform text with
  | error e => simp [MLService.predict, htf] at h
  | ok X =>
    cases hmp : modelPredict X with
    | error e => simp [MLService.predict, htf, hmp] at h
    | ok p =>
      cases hpp : proba X with
      | error e => simp [MLService.predict, htf, hmp, hpp] at h
      | ok probs =>
        simp only [MLService.predict, htf, hmp, hpp, MLPredictResult.success.injEq] at h
        obtain ⟨-, h2⟩ := h
        subst h2
        have hk : (classes.zip probs).map Prod.fst = classes :=
          List.map_fst_zip classes probs (le_of_eq (hlen X probs hpp).symm)
        refine ⟨hk, fun l hl => ?_⟩
        rw [← hk] at hl
        obtain ⟨⟨l', q⟩, hmem, rfl⟩ := List.mem_map.mp hl
        exact ⟨q, hmem⟩

theorem predict_probability_keys_witness :
    (fun probDict : List (String × ℚ) =>
      probDict.map Prod.fst = ["Normal", "Suicidal"] ∧
      ∀ l ∈ (["Normal", "Suicidal"] : List String), ∃ q, (l, q) ∈ probDict)
      [("Normal", 7 / 10), ("Suicidal", 3 / 10)] :=
  predict_probability_keys (α := Unit) (fun _ => Except.ok ())
    (fun _ => Except.ok "Normal") (fun _ => Except.ok [7 / 10, 3 / 10])
    ["Normal", "Suicidal"] "hi" "Normal" [("Normal", 7 / 10), ("Suicidal", 3 / 10)]
    (fun X probs hp => by cases hp; rfl) rfl
